import Mathlib

/-!
Verification development for the dealership lead-assistant backend.

The Python sources (`server/routes/all_routes.py`, `server/helpers/llm_utils.py`)
are shallowly embedded below.  External collaborators (the OpenAI chat API, the
YouTube search API, `json.loads` / `json.dumps`, the SQLAlchemy session) are
modelled as oracle fields of an `Env` record; the relational store and an
instrumentation trace of outbound calls live in a `World` record that is
threaded explicitly.  Machine-level details that the claims do not touch
(Python floats, wall-clock time) are modelled as rationals and opaque strings
supplied through the environment.
-/

set_option maxRecDepth 10000

namespace Dealer

/-! ### Python-value helpers -/

/-- Value of a `content` entry of a message dict: the key may be absent,
present with value `None` (JSON `null`), or present with a string. -/
inductive PyStr where
  | absent
  | null
  | str (s : String)
deriving DecidableEq, Repr

/-- Python truthiness of an optional string (`None` and `""` are falsy). -/
def pyTruthyStr : Option String → Bool
  | none => false
  | some s => !(s == "")

/-- Python `f"{x}"` rendering of an optional string (`None` prints as "None"). -/
def pyFmtOptStr : Option String → String
  | none => "None"
  | some s => s

/-- Python `x or ""` on an optional string. -/
def pyOrEmpty (o : Option String) : String := o.getD ""

/-- Substring scan over char lists: `true` iff `pat` occurs contiguously. -/
def strContainsAux (pat : List Char) : List Char → Bool
  | [] => pat.isEmpty
  | c :: rest => pat.isPrefixOf (c :: rest) || strContainsAux pat rest

/-- Python `pat in s` for strings (contiguous substring test). -/
def strContains (s pat : String) : Bool := strContainsAux pat.toList s.toList

/-- Python `s.lower()`, modelled character-wise. -/
def pyLower (s : String) : String := ⟨s.data.map Char.toLower⟩

/-- Python `s.strip()`: drop leading and trailing whitespace. -/
def pyStrip (s : String) : String :=
  ⟨((s.data.dropWhile Char.isWhitespace).reverse.dropWhile
      Char.isWhitespace).reverse⟩

/-! ### Data model: messages and tool calls -/

/-- The `function` sub-dict of a tool call. -/
structure ToolFunction where
  name : String
  arguments : String
deriving DecidableEq, Repr

/-- A tool call produced by the model API (`id`, `type`, `function`). -/
structure ToolCall where
  id : String
  type : String
  function : ToolFunction
deriving DecidableEq, Repr

/-- A conversation message.  `tool_calls = none` models an absent key and
`some []` a present-but-empty list (both are falsy in Python, but key
presence is observable via `"tool_calls" in msg`). -/
structure Message where
  role : String
  content : PyStr := .absent
  tool_calls : Option (List ToolCall) := none
  tool_call_id : Option String := none
deriving DecidableEq, Repr

/-- Python truthiness of `msg.get("tool_calls")`. -/
def toolCallsTruthy (m : Message) : Bool :=
  match m.tool_calls with
  | some (_ :: _) => true
  | _ => false

/-! ### Data model: inventory, summaries, analytics -/

/-- Timestamp with an ISO-8601 rendering (SQL `DateTime` column value). -/
structure DateTime where
  year : Nat
  month : Nat
  day : Nat
  hour : Nat
  minute : Nat
  second : Nat
deriving DecidableEq, Repr

def pad2 (n : Nat) : String := if n < 10 then "0" ++ toString n else toString n

def DateTime.isoformat (d : DateTime) : String :=
  toString d.year ++ "-" ++ pad2 d.month ++ "-" ++ pad2 d.day ++ "T" ++
    pad2 d.hour ++ ":" ++ pad2 d.minute ++ ":" ++ pad2 d.second

/-- Modelled from the spec: a row of the `car_inventory` table.  The ORM class
`models.sql_models.CarInventory` is not part of the sources; its columns are
taken from §3/§4.1 of the spec and the fields read by `fetch_cars`.  `price`
is a SQL decimal, modelled as a rational. -/
structure CarInventory where
  stock_number : String
  vin : String
  make : String
  model : String
  year : Int
  price : ℚ
  mileage : Int
  color : String
  description : String
  created_at : Option DateTime
deriving DecidableEq, Repr

/-- The plain record returned by `fetch_cars` for one car (`to_dict`). -/
structure CarDict where
  stock_number : String
  vin : String
  make : String
  model : String
  year : Int
  price : ℚ
  mileage : Int
  color : String
  description : String
  created_at : Option String
deriving DecidableEq, Repr

/-- The `insights` sub-dict of a summary.  Every key is optional: the code
performs no schema validation on the model's JSON output, so any key may be
missing (`none`). -/
structure Insights where
  urgency : Option String := none
  upsell_opportunity : Option Bool := none
  customer_interest : Option String := none
  additional_notes : Option String := none
deriving DecidableEq, Repr

/-- A summary dict as handled by `generate_conversation_summary`: the JSON
object parsed from the model's output (plus the attached
`conversation_id`).  Every key is optional — the code performs no schema
check, so a parseable object missing required fields flows through
unchanged. -/
structure SummaryDict where
  conversation_id : Option String := none
  sentiment : Option String := none
  keywords : Option (List String) := none
  summary : Option String := none
  department : Option String := none
  insights : Option Insights := none
deriving DecidableEq, Repr

/-- Token usage reported by the model API. -/
structure Usage where
  prompt_tokens : Nat
  completion_tokens : Nat
deriving DecidableEq, Repr

/-- Modelled from the spec: an `AutoLeadInteractionDetails` row as written by
`save_summary_to_db` (the ORM class itself is not under the sources). -/
structure InteractionRecord where
  conversation_summary : String
  sentiment : String
  product_keywords : List String
  priority_flag : Bool
  next_steps_recommendation : String
deriving DecidableEq, Repr

/-- Modelled from the spec: an analytics row appended per model invocation
(`services.analytics_service.store_request_analytics` is not under the
sources; §3 `AnalyticsRecord`). -/
structure AnalyticsRecord where
  model : String
  prompt_tokens : Nat
  completion_tokens : Nat
deriving DecidableEq, Repr

/-! ### Environment, world and trace -/

/-- One outbound effect, recorded for instrumentation: a chat completion
request (with the submitted transcript and whether tool schemas were
offered), a structured-output summary request, a tool execution, or a
database write attempt. -/
inductive ApiEvent where
  | completion (msgs : List Message) (toolsOffered : Bool)
  | summarizeReq (msgs : List Message)
  | toolExec (name : String)
  | dbSave (success : Bool)
deriving DecidableEq, Repr

/-- Mutable state outside the request: the persisted store plus the trace. -/
structure World where
  interactions : List InteractionRecord := []
  analytics : List AnalyticsRecord := []
  events : List ApiEvent := []
deriving DecidableEq, Repr

def logEvent (w : World) (e : ApiEvent) : World :=
  { w with events := w.events ++ [e] }

/-- A message returned by `client.chat.completions.create(...)`. -/
structure CompletionMsg where
  content : Option String
  tool_calls : Option (List ToolCall) := none
deriving DecidableEq, Repr

/-- The tool-argument dict produced by `json.loads` on a call's raw
`arguments` payload; every key is optional.  The same dict is passed whole
to `fetch_cars` and projected via `.get` for `find_car_review_videos`. -/
structure FilterParams where
  make : Option String := none
  model : Option String := none
  year : Option Int := none
  max_year : Option Int := none
  price : Option ℚ := none
  max_price : Option ℚ := none
  mileage : Option Int := none
  color : Option String := none
  stock_number : Option String := none
  vin : Option String := none
  car_make : Option String := none
  car_model : Option String := none
deriving DecidableEq, Repr

/-- A video item returned by the YouTube search oracle. -/
structure VideoItem where
  videoId : String
  title : String
  description : String
  thumbnail : String
deriving DecidableEq, Repr

/-- An entry of the `videos` list built from a search result. -/
structure VideoDict where
  id : String
  title : String
  description : String
  thumbnail : String
  url : String
deriving DecidableEq, Repr

/-- Result dict of `find_car_review_videos` (`error` key optional). -/
structure VideosResult where
  videos : List VideoDict
  error : Option String := none
deriving DecidableEq, Repr

/-- External collaborators and ambient configuration, as oracles.
`chatApi msgs toolsOffered` is one `client.chat.completions.create` call
(`toolsOffered` records whether the `tools=` schemas were passed);
`summarize` is the structured-output summary call together with the
`json.loads` of its content (`Except.error` = an exception raised there:
transport failure, invalid JSON, or a non-object result; `.ok` = a parsed
JSON object, whose keys may be arbitrary — the code performs no schema
check on it);
`parseJson` is `json.loads` on a tool-argument payload (`none` = raise);
`parseConvIdJson s` is `json.loads(s).get("conversation_id")` (`none` =
raise, `some v` = parsed with optional id `v`); `commitResult` is the
outcome of `db.session.commit()`. -/
structure Env where
  db : List CarInventory
  chatApi : List Message → Bool → CompletionMsg
  summarize : List Message → Except String (SummaryDict × Usage)
  parseJson : String → Option FilterParams
  parseConvIdJson : String → Option (Option String)
  dumpCars : List CarDict → String
  dumpVideos : VideosResult → String
  youtubeKey : Option String
  youtubeSearch : String → Except String (List VideoItem)
  freshUuid : String
  commitResult : Except String Unit
  timeStr : String

/-! ### helpers/llm_utils.py — fetch_cars -/

/-- SQL `LIKE` matching over char lists ('%' = any run, '_' = any char);
operands are lowercased by the caller for `ilike`. -/
def likeMatch : List Char → List Char → Bool
  | [], [] => true
  | [], _ :: _ => false
  | '%' :: ps, ts =>
    likeMatch ps ts ||
      (match ts with
       | [] => false
       | _ :: ts' => likeMatch ('%' :: ps) ts')
  | '_' :: ps, ts =>
    (match ts with
     | [] => false
     | _ :: ts' => likeMatch ps ts')
  | p :: ps, ts =>
    (match ts with
     | [] => false
     | t :: ts' => (t == p) && likeMatch ps ts')
termination_by pat s => pat.length + s.length
decreasing_by all_goals simp_arith

/-- Case-insensitive SQL `LIKE` (`column.ilike(pattern)`). -/
def sqlIlike (field pattern : String) : Bool :=
  likeMatch (pyLower pattern).toList (pyLower field).toList

/-- Python truthiness of `fp["make"]`-style access guarded by key presence:
`"make" in filter_params and filter_params["make"]`. -/
def strFilterOn (o : Option String) : Bool := pyTruthyStr o

/-- Guard `"year" in filter_params and filter_params["year"] != -1`. -/
def intFilterOn (o : Option Int) : Bool :=
  match o with
  | none => false
  | some n => !(n == -1)

/-- Guard for the rational-valued price filters (sentinel `-1`). -/
def ratFilterOn (o : Option ℚ) : Bool :=
  match o with
  | none => false
  | some q => !(q == -1)

/-- One `query = query.filter(...)` step: filter only when the guard holds. -/
def applyIf (b : Bool) (p : CarInventory → Bool) (l : List CarInventory) :
    List CarInventory :=
  if b then l.filter p else l

/-- The `to_dict` conversion inside `fetch_cars`: `float(car.price)` is the
same numeric value (decimal → float), `created_at` is ISO-8601 encoded when
present. -/
def to_dict (car : CarInventory) : CarDict :=
  { stock_number := car.stock_number
    vin := car.vin
    make := car.make
    model := car.model
    year := car.year
    price := car.price
    mileage := car.mileage
    color := car.color
    description := car.description
    created_at := car.created_at.map DateTime.isoformat }

/-- Embedding of `fetch_cars(filter_params)`: the chain of conditional
query filters over the inventory table, then `to_dict` on every result.
String fields use `ilike "%x%"` except `stock_number`/`vin` which use
column equality; numeric fields use inclusive bounds with sentinel `-1`. -/
def fetch_cars (fp : FilterParams) (db : List CarInventory) : List CarDict :=
  let q := db
  let q := applyIf (strFilterOn fp.make)
    (fun c => sqlIlike c.make ("%" ++ fp.make.getD "" ++ "%")) q
  let q := applyIf (strFilterOn fp.model)
    (fun c => sqlIlike c.model ("%" ++ fp.model.getD "" ++ "%")) q
  let q := applyIf (strFilterOn fp.color)
    (fun c => sqlIlike c.color ("%" ++ fp.color.getD "" ++ "%")) q
  let q := applyIf (strFilterOn fp.stock_number)
    (fun c => c.stock_number == fp.stock_number.getD "") q
  let q := applyIf (strFilterOn fp.vin)
    (fun c => c.vin == fp.vin.getD "") q
  let q := applyIf (intFilterOn fp.year)
    (fun c => fp.year.getD (-1) ≤ c.year) q
  let q := applyIf (intFilterOn fp.max_year)
    (fun c => c.year ≤ fp.max_year.getD (-1)) q
  let q := applyIf (ratFilterOn fp.price)
    (fun c => fp.price.getD (-1) ≤ c.price) q
  let q := applyIf (ratFilterOn fp.max_price)
    (fun c => c.price ≤ fp.max_price.getD (-1)) q
  let q := applyIf (intFilterOn fp.mileage)
    (fun c => c.mileage ≤ fp.mileage.getD (-1)) q
  q.map to_dict

/-! ### helpers/llm_utils.py — summary generation and persistence -/

/-- The fixed instructional system prompt of `generate_conversation_summary`
(braces of the JSON template written as escapes). -/
def summaryPromptContent : String :=
  "You are an expert at analyzing car dealership conversations and creating concise, informative summaries.\n" ++
  "Analyze the provided conversation and create a summary with the following components:\n" ++
  "1. Overall sentiment analysis (positive, neutral, or negative)\n" ++
  "2. Key tags/keywords extracted from the conversation (e.g., 'new model', 'financing', 'trade-in', 'service appointment')\n" ++
  "3. A concise summary of the main discussion points and any relevant customer information\n" ++
  "4. A follow-up routing recommendation (Sales, Service, Management, HR, Finance, or Parts)\n" ++
  "5. Additional insights such as urgency or potential upsell opportunities\n" ++
  "Format your response as a JSON object with the following structure:\n" ++
  "\x7b\n    \"sentiment\": \"positive/neutral/negative\",\n    \"keywords\": [\"keyword1\", \"keyword2\", ...],\n" ++
  "    \"summary\": \"Concise summary text\",\n    \"department\": \"Sales/Service/Management/HR/Finance/Parts\",\n" ++
  "    \"insights\": \x7b\n        \"urgency\": \"high/medium/low\",\n        \"upsell_opportunity\": true/false,\n" ++
  "        \"customer_interest\": \"high/medium/low\",\n        \"additional_notes\": \"Any other relevant information\"\n    \x7d\n\x7d\n" ++
  "Be thorough but concise in your analysis."

def summaryPromptMsg : Message := { role := "system", content := .str summaryPromptContent }

/-- The transcript filter of `generate_conversation_summary`: keep `user` and
`assistant` turns, but drop assistant turns that carry a `tool_calls` key
(`"tool_calls" in msg` is key presence, not truthiness). -/
def filteredHistory (h : List Message) : List Message :=
  h.filter (fun m =>
    (m.role == "user" || m.role == "assistant") &&
      !(m.role == "assistant" && m.tool_calls.isSome))

/-- The message list submitted to the summary model call. -/
def analysisMessages (h : List Message) : List Message :=
  summaryPromptMsg :: filteredHistory h

/-- Resolution of the conversation id: `if not conversation_id`, generate a
fresh UUID (Python falsiness: both `None` and `""`). -/
def resolveConvId (env : Env) (cid : Option String) : String :=
  match cid with
  | none => env.freshUuid
  | some c => if c == "" then env.freshUuid else c

/-- The default summary returned on any exception inside
`generate_conversation_summary`. -/
def defaultSummary (cid : String) (e : String) : SummaryDict :=
  { conversation_id := some cid
    sentiment := some "neutral"
    keywords := some ["error"]
    summary := some "Error generating summary. Please try again."
    department := some "Sales"
    insights := some
      { urgency := some "low"
        upsell_opportunity := some false
        customer_interest := some "unknown"
        additional_notes := some ("Error: " ++ e) } }

/-- Embedding of `save_summary_to_db(summary_data)`: build an
`AutoLeadInteractionDetails` row from `summary_data["summary"]`,
`["sentiment"]`, `["keywords"]` and `["insights"]` — a missing key raises
`KeyError` — then add and commit.  Its `except` catches both the `KeyError`
and a commit exception: roll back (store unchanged) and return `False`.
`insights.get("urgency")` and `.get("additional_notes", "")` use defaults
and cannot raise. -/
def save_summary_to_db (env : Env) (s : SummaryDict) (w : World) : Bool × World :=
  match s.summary, s.sentiment, s.keywords, s.insights with
  | some summ, some sent, some kw, some ins =>
    let row : InteractionRecord :=
      { conversation_summary := summ
        sentiment := sent
        product_keywords := kw
        priority_flag := ins.urgency == some "high"
        next_steps_recommendation := ins.additional_notes.getD "" }
    match env.commitResult with
    | .ok _ =>
      (true, { w with interactions := w.interactions ++ [row],
                      events := w.events ++ [.dbSave true] })
    | .error _ =>
      (false, logEvent w (.dbSave false))
  | _, _, _, _ =>
    (false, logEvent w (.dbSave false))

/-- Modelled from the spec: `store_request_analytics` of
`services.analytics_service` (not under the sources) appends one analytics
record per completed model invocation (§3 `AnalyticsRecord`). -/
def store_request_analytics (u : Usage) (model : String) (w : World) : World :=
  { w with analytics := w.analytics ++
      [{ model := model, prompt_tokens := u.prompt_tokens,
         completion_tokens := u.completion_tokens }] }

/-- Embedding of `generate_conversation_summary(conversation_history,
conversation_id)`: resolve the id, filter the transcript, issue one
structured-output model call; when an exception is raised there (transport,
JSON parse, non-object result) return the default summary; otherwise attach
the id to the parsed dict — whatever keys it has, no schema check — record
analytics, attempt persistence and ignore its result, and return the dict.
The function is total: every failure is caught. -/
def generate_conversation_summary (env : Env) (h : List Message)
    (cid : Option String) (w : World) : SummaryDict × World :=
  let cid' := resolveConvId env cid
  let msgs := analysisMessages h
  let w := logEvent w (.summarizeReq msgs)
  match env.summarize msgs with
  | .error e => (defaultSummary cid' e, w)
  | .ok (d, usage) =>
    let sj := { d with conversation_id := some cid' }
    let w := store_request_analytics usage "o3-mini-2025-01-31" w
    let (_, w) := save_summary_to_db env sj w
    (sj, w)

/-! ### helpers/llm_utils.py — end-of-conversation detection -/

/-- The fixed end-of-conversation phrase set. -/
def endPhrases : List String :=
  ["goodbye", "bye", "thank you for chatting", "have a great day",
   "is there anything else", "anything else i can help", "end of conversation",
   "conversation is complete", "conversation has ended", "wrapping up",
   "summarizing our conversation", "conversation summary"]

/-- Python `msg.get("content", "").lower()`: an absent key defaults to `""`,
a present `None` raises `AttributeError`. -/
def lowerContent (m : Message) : Except String String :=
  match m.content with
  | .absent => .ok (pyLower "")
  | .null => .error "AttributeError: 'NoneType' object has no attribute 'lower'"
  | .str s => .ok (pyLower s)

/-- The reverse scan over the recent messages: stop at the first assistant
message containing an end phrase. -/
def scanForEnd : List Message → Except String Bool
  | [] => .ok false
  | m :: rest =>
    if m.role == "assistant" then
      (lowerContent m).bind (fun c =>
        if endPhrases.any (fun p => strContains c p) then .ok true
        else scanForEnd rest)
    else scanForEnd rest

/-- Embedding of `detect_end_of_conversation(conversation_history)`:
`false` for fewer than 3 messages; otherwise scan the last 5 messages in
reverse recency order.  Exceptions (lower-casing a `null` content) surface
as `Except.error`. -/
def detect_end_of_conversation (h : List Message) : Except String Bool :=
  if h.length < 3 then .ok false
  else scanForEnd ((h.drop (h.length - 5)).reverse)

/-! ### helpers/llm_utils.py — find_car_review_videos -/

def VideoItem.toDict (v : VideoItem) : VideoDict :=
  { id := v.videoId, title := v.title, description := v.description,
    thumbnail := v.thumbnail,
    url := "https://www.youtube.com/embed/" ++ v.videoId }

/-- The search query string `f"{car_make} {car_model}" (+ f" {year}") +
" review"` (the year is appended only when truthy). -/
def videoSearchQuery (car_make car_model : Option String) (year : Option Int) :
    String :=
  let q := pyFmtOptStr car_make ++ " " ++ pyFmtOptStr car_model
  let q := match year with
    | some y => if y == 0 then q else q ++ " " ++ toString y
    | none => q
  q ++ " review"

/-- Embedding of `find_car_review_videos(car_make, car_model, year)`: a
missing (or empty) API key yields an error-carrying result; a transport
failure of the search is caught and mapped to the same shape; otherwise the
first results are converted to video dicts. -/
def find_car_review_videos (env : Env) (car_make car_model : Option String)
    (year : Option Int) : VideosResult :=
  if !(pyTruthyStr env.youtubeKey) then
    { videos := [],
      error := some "YouTube API key not configured. Please set the YOUTUBE_API_KEY environment variable." }
  else
    match env.youtubeSearch (videoSearchQuery car_make car_model year) with
    | .ok items => { videos := items.map VideoItem.toDict }
    | .error e =>
      { videos := [],
        error := some ("Failed to search for car review videos: " ++ e) }

/-! ### routes/all_routes.py — system-context insertion (`/chat`, lines 123-228) -/

/-- Opening of the fixed persona system prompt (carries the persona marker
scanned by the idempotence check). -/
def personaIntro : String :=
  " \nYou are Patricia, a knowledgeable and friendly customer support agent at Nissan of Hendersonville, a family-owned and operated Nissan dealership in Hendersonville, North Carolina.\n"

/-- Remainder of the fixed persona system prompt. -/
def personaRest : String :=
  "IMPORTANT: You must ONLY provide information that is explicitly stated in this system message. DO NOT make up or guess any information about the dealership, including:\n" ++
  "- Business hours\n- Address\n- Phone number\n- Website\n- Staff names\n- Available vehicles\n- Pricing\n" ++
  "If asked for information not provided in this message, politely inform the customer that you need to verify that information and suggest they call the dealership directly.\n" ++
  "Your primary responsibilities:\n- Help customers find the perfect Nissan vehicle that meets their needs and budget\n" ++
  "- Provide accurate information about Nissan models, features, pricing, and availability\n" ++
  "- Assist with scheduling test drives and answering questions about the car buying process\n" ++
  "- Represent the dealership with professionalism and enthusiasm\n" ++
  "- Guide customers that need to schedule a service appointment\n" ++
  "- Handle customer complaints and provide solutions\n" ++
  "Company Information (VERIFY ALL INFORMATION BEFORE PROVIDING):\n- Name: Nissan of Hendersonville\n" ++
  "- Address: 1340 Spartanburg Hwy, Hendersonville, NC 28792\n- Phone: +1 (828) 697-2222\n" ++
  "- Website: https://www.nissanofhendersonville.com\n" ++
  "Business Hours (VERIFY ALL INFORMATION BEFORE PROVIDING):\n- Monday-Saturday: 9 AM - 7 PM\n- Sunday: Closed\n" ++
  "When customers ask about inventory, use the fetch_cars function to provide accurate, up-to-date information. Always supply default values for any missing filters: use -1 for numeric fields and an empty string for text fields.\n" ++
  "If a customer shows interest in a specific car or asks to see reviews or videos about a car, use the find_car_review_videos function to provide a list of car review videos on YouTube. This function requires the car_make and car_model parameters, and optionally accepts a year parameter.\n" ++
  "Remember that you are representing a family-owned business that prides itself on customer service and helping customers find the perfect car. Be helpful, friendly, and professional in all interactions.\n" ++
  "NEVER schedule appointments for days when the dealership is closed (like Sundays).\n" ++
  "NEVER provide information about test drives without verifying the customer's contact information first.\n" ++
  "NEVER make up information about the dealership or its staff.\n" ++
  "IMPORTANT - Time Awareness:\nYou will receive a message with the current time in EST. Use this information to:\n" ++
  "1. Determine if the dealership is currently open or closed\n2. Avoid scheduling appointments outside of business hours\n" ++
  "3. Provide accurate information about when the dealership will be open next\n" ++
  "4. Consider the day of the week when discussing availability\n" ++
  "5. Dont mention the service hours or business hours unless asked or the customer asks about booking an appointment or test drive.\n" ++
  "IMPORTANT - End of Conversation:\nWhen you detect that the conversation is coming to an end (e.g., the customer says goodbye, thanks you, or indicates they have no more questions), \n" ++
  "you should explicitly signal the end of the conversation with a clear closing message such as:\n" ++
  "\"Thank you for chatting with me today. I'm glad I could help you with your questions about Nissan vehicles. Have a great day!\"\n" ++
  "This helps our system know when to generate a summary of the conversation.\n"

/-- The full content of the fixed persona system message. -/
def personaContent : String := personaIntro ++ personaRest

def personaMsg : Message := { role := "system", content := .str personaContent }

/-- The persona detection marker (substring match, not structural). -/
def personaMarker : String := "You are Patricia"

/-- The time-context detection marker. -/
def timeMarker : String := "Current time:"

/-- The time-context system message for a formatted wall-clock string. -/
def timeContextMsg (t : String) : Message :=
  { role := "system", content := .str ("Current time: " ++ t) }

/-- Condition of one `any(...)` step: a system message whose content contains
the marker.  Evaluating `marker in msg.get("content", "")` raises
`TypeError` when the content is `None` (Python `and` short-circuits, so
non-system messages never evaluate the membership). -/
def sysContains (marker : String) (m : Message) : Except String Bool :=
  if m.role == "system" then
    match m.content with
    | .absent => .ok (strContains "" marker)
    | .null => .error "TypeError: argument of type 'NoneType' is not iterable"
    | .str s => .ok (strContains s marker)
  else .ok false

/-- Python `any(generator)` over the messages: short-circuits at the first
`True`, propagates the first exception reached. -/
def hasMarkerE (marker : String) : List Message → Except String Bool
  | [] => .ok false
  | m :: rest =>
    (sysContains marker m).bind
      (fun b => if b then .ok true else hasMarkerE marker rest)

/-- Embedding of the system-context insertion step of `/chat` (lines
187-228): insert the persona message at the front unless the history is
non-empty and already carries the persona marker, then append a
time-context message unless the (updated) history carries the time marker. -/
def insertSystemContext (t : String) (h : List Message) :
    Except String (List Message) :=
  match hasMarkerE personaMarker h with
  | .error e => .error e
  | .ok hasSys =>
    let h1 := if h.isEmpty || !hasSys then personaMsg :: h else h
    match hasMarkerE timeMarker h1 with
    | .error e => .error e
    | .ok hasTime => .ok (if !hasTime then h1 ++ [timeContextMsg t] else h1)

/-! ### routes/all_routes.py — conversation-id scan and finalization -/

/-- The scan for a system message embedding a conversation id (repeated at
lines 293-300, 422-429 and 498-505): on the first system message whose
content contains `"conversation_id"`, `json.loads` it (an exception there
is swallowed and the scan continues; a successful parse breaks with the
extracted optional id).  A `null` content raises `TypeError` out of the
scan. -/
def findConversationId (env : Env) : List Message → Except String (Option String)
  | [] => .ok none
  | m :: rest =>
    if m.role == "system" then
      match m.content with
      | .absent =>
        if strContains "" "conversation_id" then
          match env.parseConvIdJson "" with
          | some v => .ok v
          | none => findConversationId env rest
        else findConversationId env rest
      | .null => .error "TypeError: argument of type 'NoneType' is not iterable"
      | .str s =>
        if strContains s "conversation_id" then
          match env.parseConvIdJson s with
          | some v => .ok v
          | none => findConversationId env rest
        else findConversationId env rest
    else findConversationId env rest

/-- Response of the `/tool-call-result` endpoint. -/
inductive TcrResp where
  | ok200 (final_response : String) (final_conversation_history : List Message)
      (summary : Option SummaryDict)
  | clientError (error : String)
  | serverError (error : String)
deriving DecidableEq, Repr

def TcrResp.status : TcrResp → Nat
  | .ok200 .. => 200
  | .clientError _ => 400
  | .serverError _ => 500

/-- The content of the final completion: `message.content or ""`. -/
def finalContent (env : Env) (h : List Message) : String :=
  pyOrEmpty (env.chatApi h false).content

/-- The finalized assistant message appended after the final completion. -/
def finalAssistantMsg (env : Env) (h : List Message) : Message :=
  { role := "assistant", content := .str (finalContent env h) }

/-- Shared tail of `/tool-call-result` (lines 477-515, duplicated at
401-439): resubmit the transcript for one completion with no tool schemas,
append the returned content as the finalized assistant message, run
end-of-conversation detection and, when it fires, the summary generator.
An exception from the detection or id scan is caught by the route's
`except` and reported as a 500. -/
def finalizePhase (env : Env) (h : List Message) (w : World) : TcrResp × World :=
  let w := logEvent w (.completion h false)
  let fr := finalContent env h
  let h2 := h ++ [finalAssistantMsg env h]
  match detect_end_of_conversation h2 with
  | .error e => (.serverError e, w)
  | .ok ended =>
    if ended then
      match findConversationId env h2 with
      | .error e => (.serverError e, w)
      | .ok cid =>
        let (s, w) := generate_conversation_summary env h2 cid w
        (.ok200 fr h2 (some s), w)
    else (.ok200 fr h2 none, w)

/-! ### routes/all_routes.py — /tool-call-result -/

/-- The reverse search for the most recent assistant message carrying a
truthy `tool_calls` value (lines 337-341). -/
def findPendingToolCall (h : List Message) : Option Message :=
  h.reverse.find? (fun m => m.role == "assistant" && toolCallsTruthy m)

/-- The tool-role message appended for one executed call. -/
def toolResponseMsg (callId content : String) : Message :=
  { role := "tool", content := .str content, tool_call_id := some callId }

/-- Default filter (all keys present with sentinel values) used by the
fallback branch (lines 379-390). -/
def fallbackFilter : FilterParams :=
  { make := some "Nissan", model := some "", year := some (-1),
    max_year := some (-1), price := some (-1), max_price := some (-1),
    mileage := some (-1), color := some "", stock_number := some "",
    vin := some "" }

def reviewKeywords : List String :=
  ["review", "reviews", "video", "videos", "watch", "see", "look at"]

/-- The fallback branch of `/tool-call-result` (lines 348-441) for a
pending message whose `tool_calls` value is falsy.  (Unreachable: the
search at lines 337-341 only selects messages with truthy `tool_calls`;
embedded for fidelity.) -/
def fallbackBranch (env : Env) (m : Message) (h : List Message) (w : World) :
    TcrResp × World :=
  if m.content == .str "Processing your request..." then
    match lowerContent m with
    | .error e => (.serverError e, w)
    | .ok mc =>
      if reviewKeywords.any (fun k => strContains mc k) then
        let w := logEvent w (.toolExec "find_car_review_videos")
        let vr := find_car_review_videos env (some "Nissan") (some "Kicks") (some 2025)
        finalizePhase env
          (h ++ [toolResponseMsg "fallback_tool_call" (env.dumpVideos vr)]) w
      else
        let w := logEvent w (.toolExec "fetch_cars")
        let cars := fetch_cars fallbackFilter env.db
        finalizePhase env
          (h ++ [toolResponseMsg "fallback_tool_call" (env.dumpCars cars)]) w
  else (.clientError "No tool call found in conversation history", w)

/-- The per-call dispatch result for a well-formed call: parse the raw
arguments, execute the named tool, serialize its result with `json.dumps`. -/
def dispatchResult (env : Env) (c : ToolCall) : String :=
  let fp := (env.parseJson c.function.arguments).getD {}
  if c.function.name == "fetch_cars" then
    env.dumpCars (fetch_cars fp env.db)
  else
    env.dumpVideos (find_car_review_videos env fp.car_make fp.car_model fp.year)

/-- The tool message produced for one executed call, in protocol order. -/
def execToolMessage (env : Env) (c : ToolCall) : Message :=
  toolResponseMsg c.id (dispatchResult env c)

/-- The dispatch loop of `/tool-call-result` (lines 443-475): execute every
pending call in order, appending one tool message per call; a malformed
argument payload or an unknown tool name aborts with a 400 response. -/
def processToolCalls (env : Env) : List ToolCall → List Message → World →
    Except TcrResp (List Message) × World
  | [], h, w => (.ok h, w)
  | c :: rest, h, w =>
    match env.parseJson c.function.arguments with
    | none => (.error (.clientError "Error parsing tool arguments"), w)
    | some fp =>
      if c.function.name == "fetch_cars" then
        let w := logEvent w (.toolExec "fetch_cars")
        let result := env.dumpCars (fetch_cars fp env.db)
        processToolCalls env rest (h ++ [toolResponseMsg c.id result]) w
      else if c.function.name == "find_car_review_videos" then
        let w := logEvent w (.toolExec "find_car_review_videos")
        let vr := find_car_review_videos env fp.car_make fp.car_model fp.year
        processToolCalls env rest (h ++ [toolResponseMsg c.id (env.dumpVideos vr)]) w
      else
        (.error (.clientError ("Unknown tool '" ++ c.function.name ++ "' called")), w)

/-- Embedding of the `/tool-call-result` endpoint (lines 319-520) on a typed
request body: find the most recent assistant message carrying tool calls
(400 when none exists anywhere), execute its calls in order, then finalize
with one completion offered no tool schemas. -/
def tool_call_result (env : Env) (h : List Message) (w : World) :
    TcrResp × World :=
  match findPendingToolCall h with
  | none => (.clientError "No assistant message found in conversation history", w)
  | some m =>
    if !(toolCallsTruthy m) then fallbackBranch env m h w
    else
      match processToolCalls env (m.tool_calls.getD []) h w with
      | (.error resp, w) => (resp, w)
      | (.ok h', w) => finalizePhase env h' w

/-! ### routes/all_routes.py — /chat -/

/-- Response of the `/chat` endpoint. -/
inductive ChatResp where
  | ok200 (chat_response : String) (conversation_history : List Message)
      (tool_call_detected : Bool) (summary : Option SummaryDict)
  | clientError (error : String)
  | serverError (error : String)
deriving DecidableEq, Repr

def ChatResp.status : ChatResp → Nat
  | .ok200 .. => 200
  | .clientError _ => 400
  | .serverError _ => 500

/-- Tail of `/chat` after the assistant message is appended (lines 288-311):
end-of-conversation detection, optional summary, 200 response. -/
def chatAfterAppend (env : Env) (resp : String) (tdet : Bool)
    (h : List Message) (w : World) : ChatResp × World :=
  match detect_end_of_conversation h with
  | .error e => (.serverError e, w)
  | .ok ended =>
    if ended then
      match findConversationId env h with
      | .error e => (.serverError e, w)
      | .ok cid =>
        let (s, w) := generate_conversation_summary env h cid w
        (.ok200 resp h tdet (some s), w)
    else (.ok200 resp h tdet none, w)

/-- Body of `/chat` past the message non-blankness check (lines 123-311):
ensure the system-context messages, request one completion with the tool
schemas offered, append either a placeholder tool-call assistant message or
the model's content, then detect/summarize.  The request's `message` field
is not consulted here. -/
def chatMain (env : Env) (h : List Message) (w : World) : ChatResp × World :=
  match insertSystemContext env.timeStr h with
  | .error e => (.serverError e, w)
  | .ok h1 =>
    let w := logEvent w (.completion h1 true)
    let msg := env.chatApi h1 true
    match msg.tool_calls with
    | some (c :: rest) =>
      let assistant_response :=
        match env.parseJson c.function.arguments with
        | none => "Error parsing tool arguments."
        | some _ => "Processing your request..."
      let am : Message :=
        { role := "assistant", content := .str assistant_response,
          tool_calls := some (c :: rest) }
      chatAfterAppend env assistant_response true (h1 ++ [am]) w
    | _ =>
      let assistant_response := pyOrEmpty msg.content
      let am : Message := { role := "assistant", content := .str assistant_response }
      chatAfterAppend env assistant_response false (h1 ++ [am]) w

/-- Embedding of the `/chat` endpoint (lines 103-316) on a typed request
body: 400 when the whitespace-stripped `message` is empty, otherwise the
message value is discarded and `chatMain` runs on the conversation history
alone. -/
def chat (env : Env) (message : String) (h : List Message) (w : World) :
    ChatResp × World :=
  let user_message := pyStrip message
  if user_message == "" then (.clientError "No 'message' provided", w)
  else chatMain env h w

/-! ### routes/all_routes.py — /generate-summary -/

/-- Response of the `/generate-summary` endpoint. -/
inductive GenSummResp where
  | ok200 (summary : SummaryDict)
  | clientError (error : String)
  | serverError (error : String)
deriving DecidableEq, Repr

def GenSummResp.status : GenSummResp → Nat
  | .ok200 _ => 200
  | .clientError _ => 400
  | .serverError _ => 500

/-- Embedding of the `/generate-summary` endpoint (lines 524-551) on a typed
request body: generate the summary and return it with a 200. -/
def generate_summary (env : Env) (h : List Message) (cid : Option String)
    (w : World) : GenSummResp × World :=
  let (s, w) := generate_conversation_summary env h cid w
  (.ok200 s, w)

/-! ### Named values used by claim statements, witnesses and counterexamples -/

/-- The exact farewell utterance of spec property 4. -/
def farewellText : String :=
  "Thank you for chatting with me today... Have a great day!"

def farewellMsg : Message := { role := "assistant", content := .str farewellText }

/-- The most recent assistant-role entry of a transcript (used to state the
claims about the detector). -/
def lastAssistantMessage (h : List Message) : Option Message :=
  h.reverse.find? (fun m => m.role == "assistant")

/-! ### Concrete environments for witnesses and counterexamples -/

/-- A fully-populated parsed summary dict used by concrete runs. -/
def coreW : SummaryDict :=
  { sentiment := some "positive", keywords := some ["suv"],
    summary := some "Customer asked about SUVs.", department := some "Sales",
    insights := some { urgency := some "low", upsell_opportunity := some false,
                       customer_interest := some "high",
                       additional_notes := some "follow up" } }

/-- A schema-mismatched parsed summary dict: a valid JSON object that lacks
every required summary field except `sentiment`. -/
def malformedDict : SummaryDict := { sentiment := some "positive" }

/-- A baseline concrete environment: empty inventory, a model that answers
in plain language, a failing summary upstream, trivially succeeding JSON
oracles. -/
def envW : Env :=
  { db := []
    chatApi := fun _ _ => { content := some "Here are the results." }
    summarize := fun _ => .error "upstream failure"
    parseJson := fun _ => some {}
    parseConvIdJson := fun _ => none
    dumpCars := fun _ => "[]"
    dumpVideos := fun _ => "\x7b\x7d"
    youtubeKey := none
    youtubeSearch := fun _ => .error "no network"
    freshUuid := "uuid-0001"
    commitResult := .ok ()
    timeStr := "2025-01-01 12:00:00 EST" }

/-- The empty initial world. -/
def w0 : World := {}

/-- Environment with a working summary upstream but a failing database
commit. -/
def env8 : Env :=
  { envW with
    summarize := fun _ => .ok (coreW, { prompt_tokens := 100, completion_tokens := 50 })
    commitResult := .error "database connection lost" }

/-- Environment whose summary upstream answers with a parseable JSON object
that does not match the expected summary schema. -/
def env3 : Env :=
  { envW with
    summarize := fun _ =>
      .ok (malformedDict, { prompt_tokens := 7, completion_tokens := 3 }) }

/-- A well-formed tool call: its raw arguments parse and its name is one of
the two registered tools. -/
def WFToolCall (env : Env) (c : ToolCall) : Prop :=
  (env.parseJson c.function.arguments).isSome = true ∧
    (c.function.name = "fetch_cars" ∨ c.function.name = "find_car_review_videos")

instance (env : Env) (c : ToolCall) : Decidable (WFToolCall env c) := by
  unfold WFToolCall
  infer_instance

/-- The transcript after the dispatch loop: one tool message per pending
call, in order. -/
def augmentedHistory (env : Env) (h : List Message) (m : Message) :
    List Message :=
  h ++ (m.tool_calls.getD []).map (execToolMessage env)

/-- Concrete pending tool calls used by witnesses. -/
def fcCall : ToolCall :=
  { id := "call_1", type := "function",
    function := { name := "fetch_cars", arguments := "\x7b\x7d" } }

def rvCall : ToolCall :=
  { id := "call_2", type := "function",
    function := { name := "find_car_review_videos", arguments := "\x7b\x7d" } }

def pending2Msg : Message :=
  { role := "assistant", content := .str "Processing your request...",
    tool_calls := some [fcCall, rvCall] }

def h1w : List Message :=
  [{ role := "user", content := .str "show me cars" }, pending2Msg]

/-- Short system messages already carrying both context markers (used by
concrete runs to exercise the endpoints). -/
def sysPersonaShort : Message :=
  { role := "system", content := .str "You are Patricia (abridged persona for tests)" }

def sysTimeShort : Message :=
  { role := "system", content := .str "Current time: 2025-01-01 12:00:00 EST" }

/-! ### Lemmas about the substring scan -/

theorem strContainsAux_iff (p : List Char) (l : List Char) :
    strContainsAux p l = true ↔ p <:+: l := by
  induction l with
  | nil =>
    simp [strContainsAux, List.infix_nil, List.isEmpty_iff]
  | cons c rest ih =>
    simp only [strContainsAux, Bool.or_eq_true, List.infix_cons_iff, ih,
       List.isPrefixOf_iff_prefix]

theorem strContains_iff (s pat : String) :
    strContains s pat = true ↔ pat.toList <:+: s.toList := by
  simp [strContains, strContainsAux_iff]

theorem toList_append (a b : String) :
    (a ++ b).toList = a.toList ++ b.toList := by
  simp [String.toList, String.data_append]

theorem strContains_append_left (a b pat : String)
    (h : strContains a pat = true) : strContains (a ++ b) pat = true := by
  rw [strContains_iff] at h ⊢
  rw [toList_append]
  obtain ⟨s, t, hst⟩ := h
  exact ⟨s, t ++ b.toList, by rw [← hst]; simp⟩

theorem strContains_append_right (a b pat : String)
    (h : strContains b pat = true) : strContains (a ++ b) pat = true := by
  rw [strContains_iff] at h ⊢
  rw [toList_append]
  obtain ⟨s, t, hst⟩ := h
  exact ⟨a.toList ++ s, t, by rw [← hst]; simp⟩

theorem strContains_self_append (p r : String) :
    strContains (p ++ r) p = true := by
  rw [strContains_iff, toList_append]
  exact ⟨[], r.toList, by simp⟩

/-! ### Lemmas about the marker scan -/

theorem personaContent_has_marker :
    strContains personaContent personaMarker = true := by
  have h : strContains personaIntro personaMarker = true := by decide
  exact strContains_append_left _ _ _ h

theorem sysContains_personaMsg_marker :
    sysContains personaMarker personaMsg = .ok true := by
  simp [sysContains, personaMsg, personaContent_has_marker]

theorem sysContains_timeContextMsg (t : String) :
    sysContains timeMarker (timeContextMsg t) = .ok true := by
  have h0 : strContains "Current time: " timeMarker = true := by decide
  have h : strContains ("Current time: " ++ t) timeMarker = true :=
    strContains_append_left _ _ _ h0
  simp [sysContains, timeContextMsg, h]

theorem hasMarkerE_cons_true (marker : String) (m : Message) (l : List Message)
    (h : sysContains marker m = .ok true) :
    hasMarkerE marker (m :: l) = .ok true := by
  simp [hasMarkerE, h, Except.bind]

theorem hasMarkerE_append_of_true (marker : String) (h l : List Message)
    (hh : hasMarkerE marker h = .ok true) :
    hasMarkerE marker (h ++ l) = .ok true := by
  induction h with
  | nil => simp [hasMarkerE] at hh
  | cons m rest ih =>
    rw [show (m :: rest) ++ l = m :: (rest ++ l) from rfl]
    rw [hasMarkerE] at hh ⊢
    cases hsc : sysContains marker m with
    | error e => simp [hsc, Except.bind] at hh
    | ok b =>
      simp only [hsc, Except.bind] at hh ⊢
      cases b with
      | true => simp
      | false =>
        have hh2 : hasMarkerE marker rest = .ok true := by simpa using hh
        simpa using ih hh2

theorem hasMarkerE_append_of_false (marker : String) (h l : List Message)
    (hh : hasMarkerE marker h = .ok false) :
    hasMarkerE marker (h ++ l) = hasMarkerE marker l := by
  induction h with
  | nil => simp
  | cons m rest ih =>
    rw [show (m :: rest) ++ l = m :: (rest ++ l) from rfl]
    rw [hasMarkerE] at hh ⊢
    cases hsc : sysContains marker m with
    | error e => simp [hsc, Except.bind] at hh
    | ok b =>
      simp only [hsc, Except.bind] at hh ⊢
      cases b with
      | true => simp at hh
      | false =>
        have hh2 : hasMarkerE marker rest = .ok false := by simpa using hh
        simpa using ih hh2

theorem hasMarkerE_ne_nil (marker : String) (h : List Message)
    (hh : hasMarkerE marker h = .ok true) : h.isEmpty = false := by
  cases h with
  | nil => simp [hasMarkerE] at hh
  | cons m rest => simp

/-! ### Claim C4 — idempotence of the system-context insertion step -/

/-- Helper for C4: once both markers are present, the insertion step changes
nothing. -/
theorem insertSystemContext_of_markers (t : String) (h' : List Message)
    (hp : hasMarkerE personaMarker h' = .ok true)
    (ht : hasMarkerE timeMarker h' = .ok true) :
    insertSystemContext t h' = .ok h' := by
  have hne : h'.isEmpty = false := hasMarkerE_ne_nil _ _ hp
  rw [insertSystemContext, hp]
  simp only [hne, Bool.not_true, Bool.or_false]
  rw [if_neg (by simp)]
  rw [ht]
  simp

/-- C4.  The system-context insertion step of `/chat` is idempotent per
transcript: whenever one application succeeds and produces `h'`, a second
application (at any later wall-clock time) inserts nothing — no duplicate
persona message and no duplicate time-context message appear. -/
theorem C4_system_context_insertion_idempotent (t1 t2 : String)
    (h h' : List Message) (happ : insertSystemContext t1 h = .ok h') :
    insertSystemContext t2 h' = .ok h' := by
  rw [insertSystemContext] at happ
  cases e1 : hasMarkerE personaMarker h with
  | error e => rw [e1] at happ; exact absurd happ (by simp)
  | ok b1 =>
    rw [e1] at happ
    simp only at happ
    by_cases hc : (h.isEmpty || !b1) = true
    · rw [if_pos hc] at happ
      cases e2 : hasMarkerE timeMarker (personaMsg :: h) with
      | error e => rw [e2] at happ; exact absurd happ (by simp)
      | ok b2 =>
        rw [e2] at happ
        cases b2 with
        | true =>
          have happ2 : personaMsg :: h = h' := by simpa using happ
          rw [← happ2]
          exact insertSystemContext_of_markers t2 _
            (hasMarkerE_cons_true _ _ _ sysContains_personaMsg_marker) e2
        | false =>
          have happ2 : (personaMsg :: h) ++ [timeContextMsg t1] = h' := by
            simpa using happ
          rw [← happ2]
          refine insertSystemContext_of_markers t2 _ ?_ ?_
          · rw [show (personaMsg :: h) ++ [timeContextMsg t1] =
              personaMsg :: (h ++ [timeContextMsg t1]) from rfl]
            exact hasMarkerE_cons_true _ _ _ sysContains_personaMsg_marker
          · rw [hasMarkerE_append_of_false _ _ _ e2]
            exact hasMarkerE_cons_true _ _ _ (sysContains_timeContextMsg t1)
    · rw [if_neg hc] at happ
      have hb1 : b1 = true := by
        cases b1 with
        | true => rfl
        | false => simp at hc
      rw [hb1] at e1
      cases e2 : hasMarkerE timeMarker h with
      | error e => rw [e2] at happ; exact absurd happ (by simp)
      | ok b2 =>
        rw [e2] at happ
        cases b2 with
        | true =>
          have happ2 : h = h' := by simpa using happ
          rw [← happ2]
          exact insertSystemContext_of_markers t2 _ e1 e2
        | false =>
          have happ2 : h ++ [timeContextMsg t1] = h' := by simpa using happ
          rw [← happ2]
          refine insertSystemContext_of_markers t2 _ ?_ ?_
          · exact hasMarkerE_append_of_true _ _ _ e1
          · rw [hasMarkerE_append_of_false _ _ _ e2]
            exact hasMarkerE_cons_true _ _ _ (sysContains_timeContextMsg t1)

/-! ### Claims C5 and C9 — the end-of-conversation detector -/

/-- Helper: on a transcript of at least 3 messages, detection scans the last
message first. -/
theorem detect_concat (l : List Message) (m : Message) (hlen : 2 ≤ l.length) :
    detect_end_of_conversation (l ++ [m]) =
      scanForEnd (m :: (l.drop (l.length - 4)).reverse) := by
  rw [detect_end_of_conversation]
  rw [if_neg (by simp only [List.length_append, List.length_cons,
    List.length_nil]; omega)]
  congr 1
  have h1 : (l ++ [m]).length - 5 = l.length - 4 := by
    simp only [List.length_append, List.length_cons, List.length_nil]; omega
  rw [h1]
  rw [List.drop_append_of_le_length (by omega)]
  rw [List.reverse_append]
  simp

/-- Helper for C5: the reverse scan answers `true` as soon as the first
assistant entry it reaches carries the farewell content. -/
theorem scanForEnd_finds (l : List Message) (m : Message)
    (hfind : l.find? (fun x => x.role == "assistant") = some m)
    (hcontent : m.content = .str farewellText) :
    scanForEnd l = .ok true := by
  induction l with
  | nil => simp [List.find?] at hfind
  | cons a rest ih =>
    rw [scanForEnd]
    by_cases hrole : (a.role == "assistant") = true
    · rw [if_pos hrole]
      have ha : a = m := by
        rw [List.find?_cons_of_pos rest hrole] at hfind
        exact Option.some.inj hfind
      rw [lowerContent.eq_def, ha, hcontent]
      simp only [Except.bind]
      rw [if_pos (by decide)]
    · rw [if_neg hrole]
      rw [List.find?_cons_of_neg rest hrole] at hfind
      exact ih hfind

/-- C5 counterexample.  Two transcripts whose last assistant message is
exactly the farewell utterance but on which the detector returns `false`:
a one-message transcript (fewer than 3 messages always answers `false`),
and a six-message transcript whose farewell assistant message has fallen
out of the 5-message window. -/
theorem C5_counterexample_short_transcript :
    (lastAssistantMessage [farewellMsg] = some farewellMsg ∧
      farewellMsg.content = .str farewellText ∧
      detect_end_of_conversation [farewellMsg] = .ok false) ∧
    (lastAssistantMessage
        (farewellMsg :: List.replicate 5 { role := "user", content := .str "hi" }) =
        some farewellMsg ∧
      3 ≤ (farewellMsg :: List.replicate 5
        ({ role := "user", content := .str "hi" } : Message)).length ∧
      detect_end_of_conversation
        (farewellMsg :: List.replicate 5 { role := "user", content := .str "hi" }) =
        .ok false) :=
  ⟨⟨rfl, rfl, rfl⟩, ⟨rfl, by decide, rfl⟩⟩

/-- C5 (amended).  On every transcript of at least 3 messages whose last
assistant message lies within the last 5 messages and has content exactly
the farewell utterance, the detector returns `true`: the reverse scan over
the window reaches that assistant message first and its lower-cased content
contains the phrase "thank you for chatting". -/
theorem C5_farewell_detected (h : List Message) (m : Message)
    (hlen : 3 ≤ h.length)
    (hfind : lastAssistantMessage (h.drop (h.length - 5)) = some m)
    (hcontent : m.content = .str farewellText) :
    detect_end_of_conversation h = .ok true := by
  rw [detect_end_of_conversation, if_neg (by omega)]
  exact scanForEnd_finds _ m hfind hcontent

/-- C5 witness: a concrete 3-message transcript ending in the farewell. -/
theorem C5_farewell_detected_witness :
    detect_end_of_conversation
      [{ role := "user", content := .str "hi" },
       { role := "user", content := .str "thanks" }, farewellMsg] = .ok true :=
  C5_farewell_detected
    [{ role := "user", content := .str "hi" },
     { role := "user", content := .str "thanks" }, farewellMsg] farewellMsg
    (by decide) rfl rfl

/-- C9.  The detector is not total on the data model: on every transcript of
at least 3 messages whose last message is an assistant message with `null`
content, it raises (`None.lower()`) instead of returning a boolean. -/
theorem C9_detect_raises_on_null_content (l : List Message) (m : Message)
    (hlen : 2 ≤ l.length) (hrole : m.role = "assistant")
    (hcontent : m.content = .null) :
    detect_end_of_conversation (l ++ [m]) =
      .error "AttributeError: 'NoneType' object has no attribute 'lower'" := by
  rw [detect_concat l m hlen]
  rw [scanForEnd]
  rw [hrole]
  rw [if_pos (by decide)]
  rw [lowerContent.eq_def, hcontent]
  simp [Except.bind]

/-- C9 witness: a concrete 3-message transcript ending in a null-content
assistant message. -/
theorem C9_detect_raises_witness :
    detect_end_of_conversation
      [{ role := "user", content := .str "hi" },
       { role := "assistant", content := .str "hello" },
       { role := "assistant", content := .null }] =
      .error "AttributeError: 'NoneType' object has no attribute 'lower'" :=
  C9_detect_raises_on_null_content
    [{ role := "user", content := .str "hi" },
     { role := "assistant", content := .str "hello" }]
    { role := "assistant", content := .null } (by decide) rfl rfl

/-! ### Claims C6 and C7 — the filter query builder -/

theorem mem_of_mem_applyIf {c : CarInventory} {b : Bool}
    {p : CarInventory → Bool} {l : List CarInventory}
    (h : c ∈ applyIf b p l) : c ∈ l := by
  cases b with
  | true => exact (List.mem_filter.mp (by simpa [applyIf] using h)).1
  | false => simpa [applyIf] using h

theorem pred_of_mem_applyIf {c : CarInventory} {p : CarInventory → Bool}
    {l : List CarInventory} (h : c ∈ applyIf true p l) : p c = true :=
  (List.mem_filter.mp (by simpa [applyIf] using h)).2

/-- C6.  A filter whose numeric fields all carry the sentinel `-1` and whose
string fields are all empty applies no predicate: `fetch_cars` returns the
entire inventory, each record rendered by `to_dict` (price as a plain
number, `created_at` ISO-8601 encoded). -/
theorem C6_sentinel_filter_returns_full_listing (db : List CarInventory)
    (fp : FilterParams)
    (hmake : fp.make = some "") (hmodel : fp.model = some "")
    (hcolor : fp.color = some "") (hstock : fp.stock_number = some "")
    (hvin : fp.vin = some "")
    (hyear : fp.year = some (-1)) (hmaxyear : fp.max_year = some (-1))
    (hprice : fp.price = some (-1)) (hmaxprice : fp.max_price = some (-1))
    (hmileage : fp.mileage = some (-1)) :
    fetch_cars fp db = db.map to_dict := by
  simp [fetch_cars, applyIf, strFilterOn, pyTruthyStr, intFilterOn,
    ratFilterOn, hmake, hmodel, hcolor, hstock, hvin, hyear, hmaxyear,
    hprice, hmaxprice, hmileage]

/-- C6 witness: a concrete two-car inventory and the all-sentinel filter. -/
theorem C6_sentinel_filter_witness :
    fetch_cars
      { make := some "", model := some "", year := some (-1),
        max_year := some (-1), price := some (-1), max_price := some (-1),
        mileage := some (-1), color := some "", stock_number := some "",
        vin := some "" }
      [{ stock_number := "ABC123", vin := "V1", make := "Nissan",
         model := "Kicks", year := 2024, price := 21000, mileage := 5,
         color := "red", description := "demo",
         created_at := some ⟨2024, 5, 6, 7, 8, 9⟩ },
       { stock_number := "ABC1234", vin := "V2", make := "Nissan",
         model := "Rogue", year := 2023, price := 28000, mileage := 1200,
         color := "blue", description := "used", created_at := none }] =
    List.map to_dict
      [{ stock_number := "ABC123", vin := "V1", make := "Nissan",
         model := "Kicks", year := 2024, price := 21000, mileage := 5,
         color := "red", description := "demo",
         created_at := some ⟨2024, 5, 6, 7, 8, 9⟩ },
       { stock_number := "ABC1234", vin := "V2", make := "Nissan",
         model := "Rogue", year := 2023, price := 28000, mileage := 1200,
         color := "blue", description := "used", created_at := none }] :=
  C6_sentinel_filter_returns_full_listing _ _ rfl rfl rfl rfl rfl rfl rfl
    rfl rfl rfl

/-- C7.  `stock_number` and `vin` filter by exact equality: every record in
the output of `fetch_cars` under a non-empty `stock_number` (resp. `vin`)
filter carries exactly that stock number (resp. VIN); in particular a
`stock_number="ABC123"` filter never matches a record with stock number
`"ABC1234"`. -/
theorem C7_stock_vin_exact_equality (db : List CarInventory)
    (fp : FilterParams) (d : CarDict) (hd : d ∈ fetch_cars fp db) :
    (∀ s, fp.stock_number = some s → s ≠ "" → d.stock_number = s) ∧
    (∀ v, fp.vin = some v → v ≠ "" → d.vin = v) := by
  simp only [fetch_cars] at hd
  obtain ⟨c, hc, rfl⟩ := List.mem_map.mp hd
  constructor
  · intro s hs hne
    have h1 := mem_of_mem_applyIf hc
    have h2 := mem_of_mem_applyIf h1
    have h3 := mem_of_mem_applyIf h2
    have h4 := mem_of_mem_applyIf h3
    have h5 := mem_of_mem_applyIf h4
    have h6 := mem_of_mem_applyIf h5
    have hguard : strFilterOn fp.stock_number = true := by
      rw [hs]; simp [strFilterOn, pyTruthyStr, hne]
    rw [hguard] at h6
    have hpred := pred_of_mem_applyIf h6
    rw [hs] at hpred
    have : c.stock_number = s := by simpa using hpred
    simpa [to_dict] using this
  · intro v hv hne
    have h1 := mem_of_mem_applyIf hc
    have h2 := mem_of_mem_applyIf h1
    have h3 := mem_of_mem_applyIf h2
    have h4 := mem_of_mem_applyIf h3
    have h5 := mem_of_mem_applyIf h4
    have hguard : strFilterOn fp.vin = true := by
      rw [hv]; simp [strFilterOn, pyTruthyStr, hne]
    rw [hguard] at h5
    have hpred := pred_of_mem_applyIf h5
    rw [hv] at hpred
    have : c.vin = v := by simpa using hpred
    simpa [to_dict] using this

/-- C7 witness: with a `stock_number="ABC123"` filter over a two-car
inventory, the single surviving record has exactly that stock number. -/
theorem C7_stock_vin_exact_equality_witness :
    (to_dict
        { stock_number := "ABC123", vin := "V1", make := "Nissan",
          model := "Kicks", year := 2024, price := 21000, mileage := 5,
          color := "red", description := "demo",
          created_at := none }).stock_number = "ABC123" :=
  (C7_stock_vin_exact_equality
    [{ stock_number := "ABC123", vin := "V1", make := "Nissan",
       model := "Kicks", year := 2024, price := 21000, mileage := 5,
       color := "red", description := "demo", created_at := none },
     { stock_number := "ABC1234", vin := "V2", make := "Nissan",
       model := "Rogue", year := 2023, price := 28000, mileage := 1200,
       color := "blue", description := "used", created_at := none }]
    { stock_number := some "ABC123" } _ (by decide)).1 "ABC123" rfl
    (by decide)

/-! ### Claim C3 — the summary generator degrades on raised failures only -/

/-- C3 counterexample.  A model response that parses as a JSON object but
lacks the required summary fields does not produce the default summary: the
malformed dict flows through the success path — `save_summary_to_db`
swallows the resulting `KeyError` (rollback, `False`, which the caller
ignores) — and is returned as-is with only `conversation_id` attached: its
sentiment stays "positive" and its keywords stay missing instead of the
claimed "neutral" / `["error"]`. -/
theorem C3_counterexample_schema_mismatch_returned_as_is :
    env3.summarize (analysisMessages []) =
      .ok (malformedDict, { prompt_tokens := 7, completion_tokens := 3 }) ∧
    malformedDict.summary = none ∧
    (generate_conversation_summary env3 [] none w0).1.sentiment =
      some "positive" ∧
    (generate_conversation_summary env3 [] none w0).1.keywords = none ∧
    (generate_conversation_summary env3 [] none w0).2.events.contains
      (.dbSave false) = true ∧
    (generate_conversation_summary env3 [] none w0).2.interactions = [] :=
  ⟨rfl, rfl, rfl, rfl, rfl, rfl⟩

/-- C3 (amended).  `generate_conversation_summary` never raises (it is
embedded as a total function), and on any model-API failure that raises
inside its `try` — transport failure, invalid JSON, a non-object result —
it returns the default summary: sentiment "neutral", keywords `["error"]`,
department "Sales", the error text embedded in the insights notes field.
No schema check is performed, however: a response that parses as a JSON
object is returned as-is with only `conversation_id` attached, whatever
keys it carries. -/
theorem C3_amended_default_on_raised_failure (env : Env) (h : List Message)
    (cid : Option String) (w : World) :
    (∀ e, env.summarize (analysisMessages h) = .error e →
      generate_conversation_summary env h cid w =
        (defaultSummary (resolveConvId env cid) e,
         logEvent w (.summarizeReq (analysisMessages h)))) ∧
    (∀ d u, env.summarize (analysisMessages h) = .ok (d, u) →
      (generate_conversation_summary env h cid w).1 =
        { d with conversation_id := some (resolveConvId env cid) }) := by
  constructor
  · intro e hfail
    simp [generate_conversation_summary, hfail]
  · intro d u hok
    cases hsv : save_summary_to_db env
      { d with conversation_id := some (resolveConvId env cid) }
      (store_request_analytics u "o3-mini-2025-01-31"
        (logEvent w (.summarizeReq (analysisMessages h)))) with
    | mk b w2 => simp [generate_conversation_summary, hok, hsv]

/-- C3 witness: the raised-failure branch returns the default summary and
the schema-mismatch branch returns the parsed dict unchanged. -/
theorem C3_amended_default_witness :
    generate_conversation_summary envW [] none w0 =
      (defaultSummary (resolveConvId envW none) "upstream failure",
       logEvent w0 (.summarizeReq (analysisMessages []))) ∧
    (generate_conversation_summary env3 [] none w0).1 =
      { malformedDict with conversation_id := some (resolveConvId env3 none) } :=
  ⟨(C3_amended_default_on_raised_failure envW [] none w0).1 "upstream failure" rfl,
   (C3_amended_default_on_raised_failure env3 [] none w0).2 malformedDict
     { prompt_tokens := 7, completion_tokens := 3 } rfl⟩

/-! ### Claim C8 — summary persistence failure -/

/-- C8 counterexample.  A run in which persisting the generated summary
fails (`commit` raises, the write is rolled back, recorded as a failed
`dbSave`), yet `/generate-summary` answers 200 — not a 500-class
`StorageError` response as claimed. -/
theorem C8_counterexample_persistence_failure_yields_200 :
    env8.commitResult = .error "database connection lost" ∧
    (generate_summary env8 [] none w0).2.events.contains (.dbSave false) = true ∧
    (generate_summary env8 [] none w0).2.interactions = [] ∧
    (generate_summary env8 [] none w0).1.status = 200 :=
  ⟨rfl, rfl, rfl, rfl⟩

/-- C8 (amended).  When persisting a summary fails, the write is rolled back
(the store is unchanged) and `save_summary_to_db` returns `False`; but the
failure is not reported to the caller: `generate_conversation_summary`
ignores the flag and `/generate-summary` still answers 200 with the
summary. -/
theorem C8_amended_rollback_without_error_report (env : Env) (e : String)
    (hc : env.commitResult = .error e) (s : SummaryDict)
    (h : List Message) (cid : Option String) (w : World)
    (core : SummaryDict) (u : Usage)
    (hs : env.summarize (analysisMessages h) = .ok (core, u)) :
    save_summary_to_db env s w = (false, logEvent w (.dbSave false)) ∧
    (generate_summary env h cid w).1 =
      .ok200 { core with conversation_id := some (resolveConvId env cid) } ∧
    (generate_summary env h cid w).2.interactions = w.interactions := by
  have hsave : ∀ (s2 : SummaryDict) (w2 : World),
      save_summary_to_db env s2 w2 = (false, logEvent w2 (.dbSave false)) := by
    intro s2 w2
    cases hsum : s2.summary <;> cases hsent : s2.sentiment <;>
      cases hkw : s2.keywords <;> cases hins : s2.insights <;>
        simp [save_summary_to_db, hc, hsum, hsent, hkw, hins]
  refine ⟨hsave s w, ?_, ?_⟩
  · simp [generate_summary, generate_conversation_summary, hs, hsave]
  · simp [generate_summary, generate_conversation_summary, hs, hsave,
      store_request_analytics, logEvent]

/-- C8 witness: the amended behaviour on the concrete failing-commit
environment. -/
theorem C8_amended_rollback_witness :
    save_summary_to_db env8 { coreW with conversation_id := some "uuid-0001" } w0 =
      (false, logEvent w0 (.dbSave false)) ∧
    (generate_summary env8 [] none w0).1 =
      .ok200 { coreW with conversation_id := some (resolveConvId env8 none) } ∧
    (generate_summary env8 [] none w0).2.interactions = w0.interactions :=
  C8_amended_rollback_without_error_report env8 "database connection lost"
    rfl { coreW with conversation_id := some "uuid-0001" } [] none w0 coreW
    { prompt_tokens := 100, completion_tokens := 50 } rfl

/-! ### Claims C1 and C2 — the /tool-call-result round-trip -/

theorem processToolCalls_ok (env : Env) (calls : List ToolCall)
    (h : List Message) (w : World)
    (hwf : ∀ c ∈ calls, WFToolCall env c) :
    (processToolCalls env calls h w).1 =
      .ok (h ++ calls.map (execToolMessage env)) := by
  induction calls generalizing h w with
  | nil => simp [processToolCalls]
  | cons c rest ih =>
    obtain ⟨hparse, hname⟩ := hwf c (by simp)
    obtain ⟨fp, hfp⟩ := Option.isSome_iff_exists.mp hparse
    have hexec : execToolMessage env c =
        (if c.function.name == "fetch_cars" then
          toolResponseMsg c.id (env.dumpCars (fetch_cars fp env.db))
        else
          toolResponseMsg c.id (env.dumpVideos
            (find_car_review_videos env fp.car_make fp.car_model fp.year))) := by
      simp only [execToolMessage, dispatchResult, hfp, Option.getD_some]
      by_cases hn : (c.function.name == "fetch_cars") = true
      · rw [if_pos hn, if_pos hn]
      · rw [if_neg hn, if_neg hn]
    rcases hname with hn | hn
    · have hbeq : (c.function.name == "fetch_cars") = true := by
        rw [hn]; rfl
      rw [processToolCalls, hfp]
      simp only [hbeq, if_pos]
      rw [ih _ _ (fun c2 hc2 => hwf c2 (List.mem_cons_of_mem c hc2))]
      rw [List.map_cons, hexec, if_pos hbeq]
      simp [List.append_assoc]
    · have hbeq2 : (c.function.name == "find_car_review_videos") = true := by
        rw [hn]; rfl
      by_cases hbeq : (c.function.name == "fetch_cars") = true
      · exact absurd (by simpa using hbeq) (by rw [hn]; decide)
      · rw [processToolCalls, hfp]
        simp only [hbeq, hbeq2, if_pos, if_neg, Bool.false_eq_true, if_false]
        rw [ih _ _ (fun c2 hc2 => hwf c2 (List.mem_cons_of_mem c hc2))]
        rw [List.map_cons, hexec, if_neg hbeq]
        simp [List.append_assoc]

theorem finalizePhase_fst (env : Env) (h : List Message) (w : World)
    (hdet : detect_end_of_conversation (h ++ [finalAssistantMsg env h]) =
      .ok false) :
    (finalizePhase env h w).1 =
      .ok200 (finalContent env h) (h ++ [finalAssistantMsg env h]) none := by
  simp [finalizePhase, hdet]

/-- C1.  In a `/tool-call-result` round-trip whose history carries a pending
tool-call assistant message with well-formed calls, the dispatcher executes
every call in order, appending for each exactly one tool-role message whose
`tool_call_id` is that call's id and whose content is the serialized result
of the named tool; the augmented transcript is then resubmitted for one
final completion with no tool schemas offered (the `false` flag of
`finalContent`), and the returned content is appended as the finalized
assistant message. -/
theorem C1_tool_round_trip (env : Env) (h : List Message) (w : World)
    (m : Message) (hfind : findPendingToolCall h = some m)
    (hwf : ∀ c ∈ m.tool_calls.getD [], WFToolCall env c)
    (hdet : detect_end_of_conversation (augmentedHistory env h m ++
      [finalAssistantMsg env (augmentedHistory env h m)]) = .ok false) :
    (tool_call_result env h w).1 =
      .ok200 (finalContent env (augmentedHistory env h m))
        (augmentedHistory env h m ++
          [finalAssistantMsg env (augmentedHistory env h m)]) none := by
  have h0 : List.find? (fun mm => mm.role == "assistant" && toolCallsTruthy mm)
      h.reverse = some m := hfind
  have hpred := List.find?_some h0
  have htru : toolCallsTruthy m = true := by
    have hpred2 : (m.role == "assistant" && toolCallsTruthy m) = true := hpred
    exact (Bool.and_eq_true _ _ |>.mp hpred2).2
  rw [tool_call_result, hfind]
  simp only [htru, Bool.not_true]
  rw [if_neg (by simp)]
  cases hp : processToolCalls env (m.tool_calls.getD []) h w with
  | mk r w2 =>
    have hr : r = .ok (augmentedHistory env h m) := by
      have := processToolCalls_ok env (m.tool_calls.getD []) h w hwf
      rw [hp] at this
      exact this
    rw [hr]
    exact finalizePhase_fst env _ w2 hdet

/-- C1 witness: a pending message with two calls (inventory lookup then
video search) is dispatched in order and finalized. -/
theorem C1_tool_round_trip_witness :
    (tool_call_result envW h1w w0).1 =
      .ok200 (finalContent envW (augmentedHistory envW h1w pending2Msg))
        (augmentedHistory envW h1w pending2Msg ++
          [finalAssistantMsg envW (augmentedHistory envW h1w pending2Msg)])
        none :=
  C1_tool_round_trip envW h1w w0 pending2Msg rfl (by decide) rfl

/-- C2 counterexample.  A history whose last entry is a plain user message —
so it does not end with a pending tool-call assistant message — but which
contains one earlier: `/tool-call-result` answers 200 and executes the
tool, contradicting the claimed 400 with no tool executed. -/
theorem C2_counterexample_pending_not_last :
    ([{ role := "assistant", content := .str "Processing your request...",
        tool_calls := some [fcCall] },
      { role := "user", content := .str "ok" }] : List Message).getLast? =
        some { role := "user", content := .str "ok" } ∧
    (tool_call_result envW
      [{ role := "assistant", content := .str "Processing your request...",
         tool_calls := some [fcCall] },
       { role := "user", content := .str "ok" }] w0).1.status = 200 ∧
    (tool_call_result envW
      [{ role := "assistant", content := .str "Processing your request...",
         tool_calls := some [fcCall] },
       { role := "user", content := .str "ok" }] w0).2.events.contains
      (.toolExec "fetch_cars") = true :=
  ⟨rfl, rfl, rfl⟩

/-- C2 (amended).  `/tool-call-result` fails with the 400 validation error
exactly when no assistant message carrying tool calls exists anywhere in
the history (the dispatcher picks the most recent such message, which need
not be the last entry); in that case the world is untouched — no tool is
executed and no model completion is requested. -/
theorem C2_amended_400_iff_no_pending_anywhere (env : Env) (h : List Message)
    (w : World) (hnone : findPendingToolCall h = none) :
    (tool_call_result env h w).1.status = 400 ∧
    tool_call_result env h w =
      (.clientError "No assistant message found in conversation history", w) := by
  rw [tool_call_result, hnone]
  exact ⟨rfl, rfl⟩

/-- C2 witness: a history with no assistant tool-call message at all. -/
theorem C2_amended_400_witness :
    (tool_call_result envW [{ role := "user", content := .str "hello" }] w0).1.status = 400 ∧
    tool_call_result envW [{ role := "user", content := .str "hello" }] w0 =
      (.clientError "No assistant message found in conversation history", w0) :=
  C2_amended_400_iff_no_pending_anywhere envW _ w0 rfl

/-! ### Claim C10 — the /chat message field is never appended -/

/-- C10 (amended).  The `message` request field of `/chat` is never appended
to the conversation: any two requests with the same history and messages
that are non-blank (non-empty after whitespace stripping) produce identical
outcomes — the same response, the same returned history, and the same
world, including the transcript submitted to the model completion (the
recorded completion event).  The message influences the outcome only
through the blank check. -/
theorem C10_message_value_immaterial (env : Env) (m1 m2 : String)
    (h : List Message) (w : World)
    (h1 : pyStrip m1 ≠ "") (h2 : pyStrip m2 ≠ "") :
    chat env m1 h w = chat env m2 h w := by
  rw [chat, chat]
  rw [if_neg (by simp [h1]), if_neg (by simp [h2])]

/-- C10 counterexample.  Two non-empty `message` values — `"a"` and the
whitespace-only `" "` — with the same history lead to different outcomes
(200 versus 400): the claim's qualifier "non-empty" is too weak, the code
rejects whitespace-only messages too. -/
theorem C10_counterexample_whitespace_message :
    ("a" ≠ "") ∧ (" " ≠ "") ∧
    (chat envW "a" [sysPersonaShort, sysTimeShort] w0).1.status = 200 ∧
    (chat envW " " [sysPersonaShort, sysTimeShort] w0).1.status = 400 :=
  ⟨by decide, by decide, rfl, rfl⟩

/-- C10 witness: two distinct non-blank messages give identical outcomes. -/
theorem C10_message_value_immaterial_witness :
    chat envW "show me red cars" [sysPersonaShort, sysTimeShort] w0 =
      chat envW "tell me a joke" [sysPersonaShort, sysTimeShort] w0 :=
  C10_message_value_immaterial envW "show me red cars" "tell me a joke"
    [sysPersonaShort, sysTimeShort] w0 (by decide) (by decide)

/-- C4 witness: a transcript already carrying both markers is left unchanged
by a further application of the insertion step. -/
theorem C4_system_context_insertion_witness :
    insertSystemContext "2025-06-30 09:00:00 EST"
      [sysPersonaShort, sysTimeShort] = .ok [sysPersonaShort, sysTimeShort] :=
  C4_system_context_insertion_idempotent "2025-01-01 12:00:00 EST"
    "2025-06-30 09:00:00 EST" [sysPersonaShort, sysTimeShort]
    [sysPersonaShort, sysTimeShort] rfl

end Dealer
